import Mathlib

/-!
Verification of the control-flow contract of the academic-chatter bot
(`academic_chat.py`): block-list filtering, first-match reshare, strategy
fallback and backoff sleeping.  The Python code is shallowly embedded:
tweets and configuration become structures, the tweepy retweet call becomes
an oracle `Tweet → RetweetResult`, and observable side effects (item
inspection, entering `retweet`, the external `tweet.retweet()` call, and
`time.sleep`) are collected in an event trace.
-/

namespace AcademicChat

/-- Outcome of the external `tweet.retweet()` call: success, or a
`tweepy.TweepError` carrying a reason string. -/
inductive RetweetResult where
  | ok : RetweetResult
  | err (reason : String) : RetweetResult
deriving DecidableEq

/-- A candidate item: author identifier (`tweet.user.screen_name`) and text
(`tweet.text`). -/
structure Tweet where
  screen_name : String
  text : String
deriving DecidableEq

/-- Model of `Config` from `academic_chat.py` (the tweepy API handle is modelled
separately as the search/retweet oracles).  `block_accounts` and
`block_words` are built by `make_config` as Python sets; only membership is
ever used, so lists model them faithfully. -/
structure Config where
  block_accounts : List String
  block_words : List String
  dryrun : Bool

/-- Model of `Queries` from `academic_chat.py`: one query string per strategy. -/
structure Queries where
  direct : String
  indirect : String
  popular : String

/-- Holds when `pat` is an initial segment of `l`. -/
def matchesAt : List Char → List Char → Bool
  | [], _ => true
  | _ :: _, [] => false
  | p :: ps, c :: cs => p == c && matchesAt ps cs

/-- Holds when `pat` occurs as a contiguous sublist of `l`. -/
def listContains : List Char → List Char → Bool
  | pat, [] => pat.isEmpty
  | pat, c :: rest => matchesAt pat (c :: rest) || listContains pat rest

/-- Python's `needle in hay` on strings: case-sensitive contiguous
substring test. -/
def strContains (needle hay : String) : Bool :=
  listContains needle.data hay.data

/-- Python's `str.strip()` with no argument: remove leading and trailing
whitespace characters. -/
def strip (s : String) : String :=
  ⟨(((s.data.dropWhile Char.isWhitespace).reverse.dropWhile
      Char.isWhitespace).reverse)⟩

/-- Observable side effects of one run, in order: pulling an item from the
search cursor, entering `retweet(config, tweet)`, the external
`tweet.retweet()` API call, and `time.sleep(secs)`. -/
inductive Event where
  | inspect (t : Tweet)
  | attempt (t : Tweet)
  | reshareCall (t : Tweet)
  | sleepEv (secs : Nat)
deriving DecidableEq

/-- Recognises reshare-attempt events. -/
def isAttempt : Event → Bool
  | .attempt _ => true
  | _ => false

/-- Recognises sleep events. -/
def isSleep : Event → Bool
  | .sleepEv _ => true
  | _ => false

/-- The check `tweet.user.screen_name in config.block_accounts` (line 60). -/
def blocked_account (cfg : Config) (t : Tweet) : Bool :=
  cfg.block_accounts.contains t.screen_name

/-- The check `any(word in tweet.text for word in config.block_words)` (line 68). -/
def blocked_word (cfg : Config) (t : Tweet) : Bool :=
  cfg.block_words.any (fun w => strContains w t.text)

/-- An item rejected by either filter. -/
def rejected (cfg : Config) (t : Tweet) : Bool :=
  blocked_account cfg t || blocked_word cfg t

/-- The transient-transport marker tested at line 80. -/
def failMsg : String := "Failed to send request"

/-- The body of the `try`/`except` block at lines 75-82: `retweet(config,
tweet)` (dry-run prints only; otherwise the external call, whose outcome
the oracle `orc` gives), the `Failed to send request` check and the 240 s
sleep.  Returns the trace and the returned boolean (`True` at line 77,
`False` at line 82). -/
def handle_attempt (cfg : Config) (orc : Tweet → RetweetResult) (t : Tweet) :
    List Event × Bool :=
  if cfg.dryrun then
    ([Event.attempt t], true)
  else
    match orc t with
    | .ok => ([Event.attempt t, Event.reshareCall t], true)
    | .err reason =>
        ([Event.attempt t, Event.reshareCall t]
          ++ (if strContains failMsg reason then [Event.sleepEv 240] else []),
          false)

/-- Model of `try_search_and_retweet` (lines 52-82), applied to the list of tweets
the search produced.  `none` models Python's implicit `None` when the loop
falls through; `some b` the explicit `return` statements. -/
def try_search_and_retweet (cfg : Config) (orc : Tweet → RetweetResult) :
    List Tweet → List Event × Option Bool
  | [] => ([], none)
  | t :: rest =>
    if blocked_account cfg t then
      (Event.inspect t :: (try_search_and_retweet cfg orc rest).1,
        (try_search_and_retweet cfg orc rest).2)
    else if blocked_word cfg t then
      (Event.inspect t :: (try_search_and_retweet cfg orc rest).1,
        (try_search_and_retweet cfg orc rest).2)
    else
      (Event.inspect t :: (handle_attempt cfg orc t).1,
        some (handle_attempt cfg orc t).2)

/-- The platform's search API: result type (`"recent"` / `"popular"`) and
query string to the stream of matching tweets. -/
abbrev SearchOracle := String → String → List Tweet

/-- Model of `search` (lines 31-35): a cursor over `result_type="recent"` limited by
`.items(1)`. -/
def search (cfg : Config) (so : SearchOracle) (q : String) : List Tweet :=
  (so "recent" q).take 1

/-- Model of `popular_search` (lines 38-42): `result_type="popular"`, `.items(10)`. -/
def popular_search (cfg : Config) (so : SearchOracle) (q : String) : List Tweet :=
  (so "popular" q).take 10

/-- A search strategy as stored in `query_list`. -/
abbrev SearchFn := Config → SearchOracle → String → List Tweet

/-- The `query_list` constructed in `search_loop` (lines 91-95). -/
def query_list (qs : Queries) : List (SearchFn × String) :=
  [(search, qs.direct), (popular_search, qs.popular), (search, qs.indirect)]

/-- The `for i, (search_fn, query) in enumerate(query_list)` loop with its
`break` (lines 97-101): trace, and the recorded `successful_query_idx`. -/
def run_query_list (cfg : Config) (orc : Tweet → RetweetResult)
    (so : SearchOracle) : List (SearchFn × String) → List Event × Option Nat
  | [] => ([], none)
  | (fn, q) :: rest =>
    if (try_search_and_retweet cfg orc (fn cfg so q)).2 = some true then
      ((try_search_and_retweet cfg orc (fn cfg so q)).1, some 0)
    else
      ((try_search_and_retweet cfg orc (fn cfg so q)).1
          ++ (run_query_list cfg orc so rest).1,
        (run_query_list cfg orc so rest).2.map (· + 1))

/-- Sleep after a cycle that found nothing (line 104). -/
def short_backoff : Nat := 600

/-- Sleep after a cycle that shared something (line 107). -/
def long_backoff : Nat := 1600

/-- One iteration of the `while True` loop of `search_loop` (lines
96-107): run the strategies in order, then sleep 1600 s if some strategy
reported success, otherwise 600 s. -/
def search_cycle (cfg : Config) (orc : Tweet → RetweetResult)
    (so : SearchOracle) (qs : Queries) : List Event × Option Nat :=
  match run_query_list cfg orc so (query_list qs) with
  | (evs, some i) => (evs ++ [Event.sleepEv long_backoff], some i)
  | (evs, none) => (evs ++ [Event.sleepEv short_backoff], none)

/-- Query construction from `make_queries` (lines 148-150): each stripped
line parenthesized, joined with `" OR "`, then the fixed exclusion clauses
and the account handle. -/
def make_query (lines : List String) (handle : String) : String :=
  String.intercalate " OR " (lines.map (fun l => "(" ++ strip l ++ ")"))
    ++ " -filter:retweets AND -filter:replies AND -from:" ++ handle

/-- Block-word loading from `make_config` (lines 129-130): each line of the
file stripped (set construction only dedups; membership is unchanged). -/
def load_block_words (lines : List String) : List String :=
  lines.map (fun l => strip l)

/-! ### Substring test: correspondence with contiguous-sublist decomposition -/

theorem matchesAt_iff (p l : List Char) : matchesAt p l = true ↔ ∃ r, l = p ++ r := by
  induction p generalizing l with
  | nil =>
    simp [matchesAt]
  | cons c cs ih =>
    cases l with
    | nil => simp [matchesAt]
    | cons d ds =>
      simp only [matchesAt, Bool.and_eq_true, beq_iff_eq, ih, List.cons_append,
        List.cons.injEq]
      constructor
      · rintro ⟨rfl, r, rfl⟩
        exact ⟨r, rfl, rfl⟩
      · rintro ⟨r, rfl, rfl⟩
        exact ⟨rfl, r, rfl⟩

theorem listContains_iff (p l : List Char) :
    listContains p l = true ↔ ∃ pre post, l = pre ++ p ++ post := by
  induction l with
  | nil =>
    simp only [listContains, List.isEmpty_iff]
    constructor
    · rintro rfl
      exact ⟨[], [], rfl⟩
    · rintro ⟨pre, post, h⟩
      rcases List.append_eq_nil.mp h.symm with ⟨h1, h2⟩
      exact (List.append_eq_nil.mp h1).2
  | cons c rest ih =>
    simp only [listContains, Bool.or_eq_true, matchesAt_iff, ih]
    constructor
    · rintro (⟨r, hr⟩ | ⟨pre, post, h⟩)
      · exact ⟨[], r, by simp [hr]⟩
      · exact ⟨c :: pre, post, by simp [h]⟩
    · rintro ⟨pre, post, h⟩
      cases pre with
      | nil => exact Or.inl ⟨post, by simpa using h⟩
      | cons x xs =>
        simp only [List.cons_append, List.cons.injEq] at h
        exact Or.inr ⟨xs, post, by simp [h.2]⟩

theorem strContains_iff (needle hay : String) :
    strContains needle hay = true ↔
      ∃ pre post, hay.data = pre ++ needle.data ++ post :=
  listContains_iff _ _

theorem strContains_empty (s : String) : strContains "" s = true :=
  (strContains_iff "" s).mpr ⟨[], s.data, by simp⟩

/-! ### Trace shape of a single reshare attempt -/

theorem mem_handle_attempt {cfg : Config} {orc : Tweet → RetweetResult}
    {t : Tweet} {e : Event} (h : e ∈ (handle_attempt cfg orc t).1) :
    e = Event.attempt t ∨ e = Event.reshareCall t ∨ e = Event.sleepEv 240 := by
  unfold handle_attempt at h
  split at h
  · simp at h
    exact Or.inl h
  · split at h
    · simp at h
      rcases h with h | h
      · exact Or.inl h
      · exact Or.inr (Or.inl h)
    · rename_i reason heq
      by_cases hf : strContains failMsg reason
      · simp [hf] at h
        rcases h with h | h | h
        · exact Or.inl h
        · exact Or.inr (Or.inl h)
        · exact Or.inr (Or.inr h)
      · simp [hf] at h
        rcases h with h | h
        · exact Or.inl h
        · exact Or.inr (Or.inl h)

theorem filter_isAttempt_handle_attempt (cfg : Config)
    (orc : Tweet → RetweetResult) (t : Tweet) :
    ((handle_attempt cfg orc t).1).filter isAttempt = [Event.attempt t] := by
  unfold handle_attempt
  split
  · simp [isAttempt]
  · split
    · simp [isAttempt]
    · rename_i reason heq
      by_cases hf : strContains failMsg reason <;> simp [hf, isAttempt]

/-! ### Trace shape of the per-query item loop -/

theorem mem_try_events {cfg : Config} {orc : Tweet → RetweetResult} :
    ∀ {items : List Tweet} {e : Event},
    e ∈ (try_search_and_retweet cfg orc items).1 →
    (∃ u ∈ items, e = Event.inspect u) ∨
    (∃ u ∈ items, blocked_account cfg u = false ∧ blocked_word cfg u = false ∧
      e ∈ (handle_attempt cfg orc u).1) := by
  intro items
  induction items with
  | nil =>
    intro e h
    simp [try_search_and_retweet] at h
  | cons t rest ih =>
    intro e h
    cases ha : blocked_account cfg t with
    | true =>
      simp only [try_search_and_retweet, ha, if_true, List.mem_cons] at h
      rcases h with rfl | h
      · exact Or.inl ⟨t, by simp, rfl⟩
      · rcases ih h with ⟨u, hu, he⟩ | ⟨u, hu, h1, h2, h3⟩
        · exact Or.inl ⟨u, by simp [hu], he⟩
        · exact Or.inr ⟨u, by simp [hu], h1, h2, h3⟩
    | false =>
      cases hw : blocked_word cfg t with
      | true =>
        simp only [try_search_and_retweet, ha, hw, Bool.false_eq_true, if_false,
          if_true, List.mem_cons] at h
        rcases h with rfl | h
        · exact Or.inl ⟨t, by simp, rfl⟩
        · rcases ih h with ⟨u, hu, he⟩ | ⟨u, hu, h1, h2, h3⟩
          · exact Or.inl ⟨u, by simp [hu], he⟩
          · exact Or.inr ⟨u, by simp [hu], h1, h2, h3⟩
      | false =>
        simp only [try_search_and_retweet, ha, hw, Bool.false_eq_true, if_false,
          List.mem_cons] at h
        rcases h with rfl | h
        · exact Or.inl ⟨t, by simp, rfl⟩
        · exact Or.inr ⟨t, by simp, ha, hw, h⟩

/-! ### C1: blocked authors are never reshared -/

/-- C1: whenever a candidate item's author is in the blocked-accounts set,
`try_search_and_retweet` skips it: no reshare attempt (entry into
`retweet`) and no external reshare call ever happens on it, for any oracle
(hence any item text and any dry-run flag). -/
theorem blocked_account_never_attempted (cfg : Config)
    (orc : Tweet → RetweetResult) (items : List Tweet) (t : Tweet)
    (h : t.screen_name ∈ cfg.block_accounts) :
    Event.attempt t ∉ (try_search_and_retweet cfg orc items).1 ∧
    Event.reshareCall t ∉ (try_search_and_retweet cfg orc items).1 := by
  have hacc : blocked_account cfg t = true := by
    simpa [blocked_account] using h
  constructor
  · intro hmem
    rcases mem_try_events hmem with ⟨u, _, he⟩ | ⟨u, _, h1, _, he⟩
    · simp at he
    · rcases mem_handle_attempt he with h3 | h3 | h3
      · obtain rfl := Event.attempt.inj h3
        simp [h1] at hacc
      · simp at h3
      · simp at h3
  · intro hmem
    rcases mem_try_events hmem with ⟨u, _, he⟩ | ⟨u, _, h1, _, he⟩
    · simp at he
    · rcases mem_handle_attempt he with h3 | h3 | h3
      · simp at h3
      · obtain rfl := Event.reshareCall.inj h3
        simp [h1] at hacc
      · simp at h3

theorem blocked_account_never_attempted_witness :
    (("spam" : String) ∈ ["spam"]) ∧
    Event.attempt ⟨"spam", "hello"⟩ ∉
      (try_search_and_retweet ⟨["spam"], [], false⟩ (fun _ => RetweetResult.ok)
        [⟨"spam", "hello"⟩]).1 :=
  ⟨by decide,
    (blocked_account_never_attempted ⟨["spam"], [], false⟩
      (fun _ => RetweetResult.ok) [⟨"spam", "hello"⟩] ⟨"spam", "hello"⟩
      (by decide)).1⟩

/-! ### C2: blocked words are never reshared -/

/-- C2: if a candidate item's author is not blocked but its text contains
some blocked word as a case-sensitive, unmodified substring, then
`try_search_and_retweet` skips it: no reshare attempt and no external
reshare call ever happens on it. -/
theorem blocked_word_never_attempted (cfg : Config)
    (orc : Tweet → RetweetResult) (items : List Tweet) (t : Tweet)
    (ha : t.screen_name ∉ cfg.block_accounts)
    (w : String) (hw : w ∈ cfg.block_words)
    (hsub : ∃ pre post, t.text.data = pre ++ w.data ++ post) :
    Event.attempt t ∉ (try_search_and_retweet cfg orc items).1 ∧
    Event.reshareCall t ∉ (try_search_and_retweet cfg orc items).1 := by
  have hbw : blocked_word cfg t = true := by
    simp only [blocked_word, List.any_eq_true]
    exact ⟨w, hw, (strContains_iff w t.text).mpr hsub⟩
  constructor
  · intro hmem
    rcases mem_try_events hmem with ⟨u, _, he⟩ | ⟨u, _, _, h2, he⟩
    · simp at he
    · rcases mem_handle_attempt he with h3 | h3 | h3
      · obtain rfl := Event.attempt.inj h3
        simp [h2] at hbw
      · simp at h3
      · simp at h3
  · intro hmem
    rcases mem_try_events hmem with ⟨u, _, he⟩ | ⟨u, _, _, h2, he⟩
    · simp at he
    · rcases mem_handle_attempt he with h3 | h3 | h3
      · simp at h3
      · obtain rfl := Event.reshareCall.inj h3
        simp [h2] at hbw
      · simp at h3

theorem blocked_word_never_attempted_witness :
    (("alice" : String) ∉ ([] : List String)) ∧
    (("bad" : String) ∈ ["bad"]) ∧
    Event.attempt ⟨"alice", "xbady"⟩ ∉
      (try_search_and_retweet ⟨[], ["bad"], false⟩ (fun _ => RetweetResult.ok)
        [⟨"alice", "xbady"⟩]).1 :=
  ⟨by decide, by decide,
    (blocked_word_never_attempted ⟨[], ["bad"], false⟩
      (fun _ => RetweetResult.ok) [⟨"alice", "xbady"⟩] ⟨"alice", "xbady"⟩
      (by decide) "bad" (by decide)
      ⟨"x".data, "y".data, by decide⟩).1⟩

/-! ### C3: the item loop acts on the first acceptable candidate only -/

theorem try_cons_rejected (cfg : Config) (orc : Tweet → RetweetResult)
    {t : Tweet} (h : rejected cfg t = true) (rest : List Tweet) :
    try_search_and_retweet cfg orc (t :: rest)
      = (Event.inspect t :: (try_search_and_retweet cfg orc rest).1,
          (try_search_and_retweet cfg orc rest).2) := by
  cases ha : blocked_account cfg t with
  | true => simp [try_search_and_retweet, ha]
  | false =>
    have hw : blocked_word cfg t = true := by
      simpa [rejected, ha] using h
    simp [try_search_and_retweet, ha, hw]

theorem try_cons_pass (cfg : Config) (orc : Tweet → RetweetResult)
    {t : Tweet} (ha : blocked_account cfg t = false)
    (hw : blocked_word cfg t = false) (rest : List Tweet) :
    try_search_and_retweet cfg orc (t :: rest)
      = (Event.inspect t :: (handle_attempt cfg orc t).1,
          some (handle_attempt cfg orc t).2) := by
  simp [try_search_and_retweet, ha, hw]

theorem try_split (cfg : Config) (orc : Tweet → RetweetResult)
    (pre : List Tweet) (t : Tweet) (post : List Tweet)
    (hpre : ∀ u ∈ pre, rejected cfg u = true)
    (ha : blocked_account cfg t = false) (hw : blocked_word cfg t = false) :
    try_search_and_retweet cfg orc (pre ++ t :: post)
      = (pre.map Event.inspect
          ++ Event.inspect t :: (handle_attempt cfg orc t).1,
         some (handle_attempt cfg orc t).2) := by
  induction pre with
  | nil => simpa using try_cons_pass cfg orc ha hw post
  | cons u us ih =>
    have hu : rejected cfg u = true := hpre u (by simp)
    have hrest : ∀ v ∈ us, rejected cfg v = true :=
      fun v hv => hpre v (by simp [hv])
    rw [List.cons_append, try_cons_rejected cfg orc hu, ih hrest]
    simp

/-- C3: if the first `k` items of the search result are rejected by the
account or word filter and item `k+1` passes both, then the item loop
inspects only those first `k+1` items (the rest of the sequence never
influences the trace or result), performs exactly one reshare attempt,
namely on item `k+1`, and returns (`some` outcome) at that attempt whether
the reshare succeeds or fails. -/
theorem first_acceptable_terminates (cfg : Config)
    (orc : Tweet → RetweetResult) (pre : List Tweet) (t : Tweet)
    (post : List Tweet) (hpre : ∀ u ∈ pre, rejected cfg u = true)
    (ha : blocked_account cfg t = false) (hw : blocked_word cfg t = false) :
    try_search_and_retweet cfg orc (pre ++ t :: post)
      = (pre.map Event.inspect
          ++ Event.inspect t :: (handle_attempt cfg orc t).1,
         some (handle_attempt cfg orc t).2) ∧
    ((try_search_and_retweet cfg orc (pre ++ t :: post)).1).filter isAttempt
      = [Event.attempt t] := by
  have heq := try_split cfg orc pre t post hpre ha hw
  refine ⟨heq, ?_⟩
  rw [heq]
  simp [List.filter_append, List.filter_map, Function.comp, isAttempt,
    List.filter_cons, filter_isAttempt_handle_attempt cfg orc t]

theorem first_acceptable_terminates_witness :
    try_search_and_retweet ⟨["bad"], ["spam"], true⟩ (fun _ => RetweetResult.ok)
        [⟨"bad", "a"⟩, ⟨"u", "x spam y"⟩, ⟨"u2", "clean"⟩, ⟨"z", "zz"⟩]
      = ([Event.inspect ⟨"bad", "a"⟩, Event.inspect ⟨"u", "x spam y"⟩,
          Event.inspect ⟨"u2", "clean"⟩, Event.attempt ⟨"u2", "clean"⟩],
         some true) := by
  have h := first_acceptable_terminates ⟨["bad"], ["spam"], true⟩
    (fun _ => RetweetResult.ok) [⟨"bad", "a"⟩, ⟨"u", "x spam y"⟩]
    ⟨"u2", "clean"⟩ [⟨"z", "zz"⟩] (by decide) (by decide) (by decide)
  simpa [handle_attempt] using h.1

/-! ### Cycle-level lemmas about the strategy loop -/

theorem run_query_list_found (cfg : Config) (orc : Tweet → RetweetResult)
    (so : SearchOracle) (pre : List (SearchFn × String)) (p : SearchFn × String)
    (post : List (SearchFn × String))
    (hpre : ∀ q ∈ pre,
      (try_search_and_retweet cfg orc (q.1 cfg so q.2)).2 ≠ some true)
    (hp : (try_search_and_retweet cfg orc (p.1 cfg so p.2)).2 = some true) :
    run_query_list cfg orc so (pre ++ p :: post)
      = ((pre.map
            (fun q => (try_search_and_retweet cfg orc (q.1 cfg so q.2)).1)).flatten
          ++ (try_search_and_retweet cfg orc (p.1 cfg so p.2)).1,
         some pre.length) := by
  induction pre with
  | nil =>
    obtain ⟨fn, q⟩ := p
    simp only [List.nil_append, List.map_nil, List.flatten_nil]
    simp [run_query_list, hp]
  | cons r rs ih =>
    obtain ⟨fn, q⟩ := r
    have hr : (try_search_and_retweet cfg orc (fn cfg so q)).2 ≠ some true :=
      hpre (fn, q) (by simp)
    have hrs : ∀ q ∈ rs,
        (try_search_and_retweet cfg orc (q.1 cfg so q.2)).2 ≠ some true :=
      fun q hq => hpre q (by simp [hq])
    rw [List.cons_append]
    simp only [run_query_list, if_neg hr, ih hrs]
    simp

theorem run_query_list_no_success (cfg : Config) (orc : Tweet → RetweetResult)
    (so : SearchOracle) (l : List (SearchFn × String))
    (h : ∀ q ∈ l,
      (try_search_and_retweet cfg orc (q.1 cfg so q.2)).2 ≠ some true) :
    run_query_list cfg orc so l
      = ((l.map
            (fun q => (try_search_and_retweet cfg orc (q.1 cfg so q.2)).1)).flatten,
         none) := by
  induction l with
  | nil => simp [run_query_list]
  | cons r rs ih =>
    obtain ⟨fn, q⟩ := r
    have hr : (try_search_and_retweet cfg orc (fn cfg so q)).2 ≠ some true :=
      h (fn, q) (by simp)
    have hrs : ∀ q ∈ rs,
        (try_search_and_retweet cfg orc (q.1 cfg so q.2)).2 ≠ some true :=
      fun q hq => h q (by simp [hq])
    simp only [run_query_list, if_neg hr, ih hrs]
    simp

theorem try_all_rejected (cfg : Config) (orc : Tweet → RetweetResult)
    (items : List Tweet) (h : ∀ t ∈ items, rejected cfg t = true) :
    try_search_and_retweet cfg orc items = (items.map Event.inspect, none) := by
  induction items with
  | nil => simp [try_search_and_retweet]
  | cons t rest ih =>
    rw [try_cons_rejected cfg orc (h t (by simp)),
      ih (fun v hv => h v (by simp [hv]))]
    simp

/-! ### C4: what ends a cycle as "found" -/

/-- C4, counterexample: with no block lists, a reshare oracle that always
fails with reason `"boom"`, and a platform whose recent search for the
direct query returns one tweet (all other searches empty), the first
strategy performs a terminal reshare attempt that fails — yet the cycle
records no strategy index and sleeps the short (600 s) backoff, not the
long one, contradicting the claim that a failed terminal attempt makes the
cycle "found". -/
theorem cycle_found_counterexample :
    Event.attempt ⟨"alice", "hello"⟩ ∈
      (search_cycle ⟨[], [], false⟩ (fun _ => RetweetResult.err "boom")
        (fun rt q => if rt == "recent" && q == "d" then [⟨"alice", "hello"⟩] else [])
        ⟨"d", "i", "p"⟩).1 ∧
    (search_cycle ⟨[], [], false⟩ (fun _ => RetweetResult.err "boom")
        (fun rt q => if rt == "recent" && q == "d" then [⟨"alice", "hello"⟩] else [])
        ⟨"d", "i", "p"⟩).2 = none ∧
    Event.sleepEv short_backoff ∈
      (search_cycle ⟨[], [], false⟩ (fun _ => RetweetResult.err "boom")
        (fun rt q => if rt == "recent" && q == "d" then [⟨"alice", "hello"⟩] else [])
        ⟨"d", "i", "p"⟩).1 ∧
    Event.sleepEv long_backoff ∉
      (search_cycle ⟨[], [], false⟩ (fun _ => RetweetResult.err "boom")
        (fun rt q => if rt == "recent" && q == "d" then [⟨"alice", "hello"⟩] else [])
        ⟨"d", "i", "p"⟩).1 := by
  decide

/-- C4, amended: a cycle is "found" exactly when some strategy's
`try_search_and_retweet` reports a *successful* reshare (`some true`; a
failed attempt reports `some false` and iteration continues with the next
strategy).  When the strategies before `p` do not report success and `p`
does, the remaining strategies are not iterated (the trace contains only
the earlier strategies' and `p`'s events), `p`'s index is recorded, and
the long backoff (1600 s) is slept. -/
theorem cycle_found_on_success (cfg : Config) (orc : Tweet → RetweetResult)
    (so : SearchOracle) (qs : Queries) (pre : List (SearchFn × String))
    (p : SearchFn × String) (post : List (SearchFn × String))
    (hql : query_list qs = pre ++ p :: post)
    (hpre : ∀ q ∈ pre,
      (try_search_and_retweet cfg orc (q.1 cfg so q.2)).2 ≠ some true)
    (hp : (try_search_and_retweet cfg orc (p.1 cfg so p.2)).2 = some true) :
    search_cycle cfg orc so qs
      = ((pre.map
            (fun q => (try_search_and_retweet cfg orc (q.1 cfg so q.2)).1)).flatten
          ++ (try_search_and_retweet cfg orc (p.1 cfg so p.2)).1
          ++ [Event.sleepEv long_backoff],
         some pre.length) := by
  unfold search_cycle
  rw [hql, run_query_list_found cfg orc so pre p post hpre hp]

theorem cycle_found_on_success_witness :
    search_cycle ⟨[], [], true⟩ (fun _ => RetweetResult.ok)
        (fun _ _ => [⟨"a", "x"⟩]) ⟨"d", "i", "p"⟩
      = ([Event.inspect ⟨"a", "x"⟩, Event.attempt ⟨"a", "x"⟩,
          Event.sleepEv 1600], some 0) := by
  have h := cycle_found_on_success ⟨[], [], true⟩ (fun _ => RetweetResult.ok)
    (fun _ _ => [⟨"a", "x"⟩]) ⟨"d", "i", "p"⟩ [] (search, "d")
    [(popular_search, "p"), (search, "i")] rfl (by simp) (by decide)
  exact h.trans (by decide)

/-! ### C5: transient-transport failure sleeps once, others not at all -/

/-- C5: when a candidate passes both filters and the (non-dry-run) reshare
fails with reason `reason`, the per-query call returns `some false`
immediately after the attempt — the remaining items are never touched, so
the candidate is not retried — with exactly one 240-second sleep when the
reason contains `"Failed to send request"` and no sleep otherwise. -/
theorem transient_failure_sleep (cfg : Config) (orc : Tweet → RetweetResult)
    (t : Tweet) (rest : List Tweet) (reason : String)
    (hd : cfg.dryrun = false) (ha : blocked_account cfg t = false)
    (hw : blocked_word cfg t = false)
    (horc : orc t = RetweetResult.err reason) :
    try_search_and_retweet cfg orc (t :: rest)
      = (Event.inspect t :: Event.attempt t :: Event.reshareCall t ::
          (if strContains failMsg reason then [Event.sleepEv 240] else []),
         some false) ∧
    (strContains failMsg reason = true →
      ((try_search_and_retweet cfg orc (t :: rest)).1).countP isSleep = 1) ∧
    (strContains failMsg reason = false →
      ((try_search_and_retweet cfg orc (t :: rest)).1).countP isSleep = 0) := by
  have hha : handle_attempt cfg orc t
      = (Event.attempt t :: Event.reshareCall t ::
          (if strContains failMsg reason then [Event.sleepEv 240] else []),
         false) := by
    simp [handle_attempt, hd, horc]
  have heq := try_cons_pass cfg orc ha hw rest
  rw [hha] at heq
  refine ⟨heq, ?_, ?_⟩
  · intro hf
    rw [heq]
    simp [hf, isSleep]
  · intro hf
    rw [heq]
    simp [hf, isSleep]

theorem transient_failure_sleep_witness :
    (try_search_and_retweet ⟨[], [], false⟩
        (fun _ => RetweetResult.err "Failed to send request: timeout")
        [⟨"a", "x"⟩]
      = ([Event.inspect ⟨"a", "x"⟩, Event.attempt ⟨"a", "x"⟩,
          Event.reshareCall ⟨"a", "x"⟩, Event.sleepEv 240], some false)) ∧
    ((try_search_and_retweet ⟨[], [], false⟩
        (fun _ => RetweetResult.err "Failed to send request: timeout")
        [⟨"a", "x"⟩]).1).countP isSleep = 1 := by
  have h := transient_failure_sleep ⟨[], [], false⟩
    (fun _ => RetweetResult.err "Failed to send request: timeout")
    ⟨"a", "x"⟩ [] "Failed to send request: timeout" rfl (by decide) (by decide)
    rfl
  exact ⟨h.1.trans (by decide), h.2.1 (by decide)⟩

/-! ### C6: dry-run has no external side effect but counts as found -/

/-- C6: with the dry-run flag set, if the direct (first) strategy's search
yields a head candidate that passes both filters, the cycle performs the
attempt without any external reshare call, reports it as a success, records
strategy index 0 and sleeps the long backoff. -/
theorem dryrun_no_side_effect (cfg : Config) (orc : Tweet → RetweetResult)
    (so : SearchOracle) (qs : Queries) (t : Tweet) (rest : List Tweet)
    (hd : cfg.dryrun = true) (ha : blocked_account cfg t = false)
    (hw : blocked_word cfg t = false)
    (hs : so "recent" qs.direct = t :: rest) :
    search_cycle cfg orc so qs
      = ([Event.inspect t, Event.attempt t, Event.sleepEv long_backoff],
         some 0) ∧
    ∀ u, Event.reshareCall u ∉ (search_cycle cfg orc so qs).1 := by
  have hsearch : search cfg so qs.direct = [t] := by
    simp [search, hs]
  have hha : handle_attempt cfg orc t = ([Event.attempt t], true) := by
    simp [handle_attempt, hd]
  have htry : try_search_and_retweet cfg orc (search cfg so qs.direct)
      = ([Event.inspect t, Event.attempt t], some true) := by
    rw [hsearch, try_cons_pass cfg orc ha hw, hha]
  have hrun := run_query_list_found cfg orc so [] (search, qs.direct)
    [(popular_search, qs.popular), (search, qs.indirect)] (by simp) (by rw [htry])
  have hcyc : search_cycle cfg orc so qs
      = ([Event.inspect t, Event.attempt t, Event.sleepEv long_backoff],
         some 0) := by
    unfold search_cycle
    rw [show query_list qs
        = [] ++ (search, qs.direct)
            :: [(popular_search, qs.popular), (search, qs.indirect)] from rfl,
      hrun, htry]
    simp
  refine ⟨hcyc, ?_⟩
  intro u hmem
  rw [hcyc] at hmem
  simp at hmem

theorem dryrun_no_side_effect_witness :
    (search_cycle ⟨[], [], true⟩ (fun _ => RetweetResult.err "never called")
        (fun _ _ => [⟨"a", "x"⟩, ⟨"b", "y"⟩]) ⟨"d", "i", "p"⟩
      = ([Event.inspect ⟨"a", "x"⟩, Event.attempt ⟨"a", "x"⟩,
          Event.sleepEv 1600], some 0)) ∧
    Event.reshareCall ⟨"a", "x"⟩ ∉
      (search_cycle ⟨[], [], true⟩ (fun _ => RetweetResult.err "never called")
        (fun _ _ => [⟨"a", "x"⟩, ⟨"b", "y"⟩]) ⟨"d", "i", "p"⟩).1 := by
  have h := dryrun_no_side_effect ⟨[], [], true⟩
    (fun _ => RetweetResult.err "never called")
    (fun _ _ => [⟨"a", "x"⟩, ⟨"b", "y"⟩]) ⟨"d", "i", "p"⟩ ⟨"a", "x"⟩ [⟨"b", "y"⟩]
    rfl (by decide) (by decide) rfl
  exact ⟨h.1, h.2 ⟨"a", "x"⟩⟩

/-! ### C7: a cycle with nothing acceptable takes the short backoff -/

/-- C7: if every strategy's candidate sequence is empty or consists only
of filter-rejected items, the cycle records no strategy index, its trace is
just the inspections followed by the short-backoff sleep, and the short
backoff is strictly shorter than the long one. -/
theorem empty_cycle_short_backoff (cfg : Config) (orc : Tweet → RetweetResult)
    (so : SearchOracle) (qs : Queries)
    (h : ∀ q ∈ query_list qs, ∀ t ∈ q.1 cfg so q.2, rejected cfg t = true) :
    search_cycle cfg orc so qs
      = (((query_list qs).map
            (fun q => (q.1 cfg so q.2).map Event.inspect)).flatten
          ++ [Event.sleepEv short_backoff], none) ∧
    short_backoff < long_backoff := by
  have htry : ∀ q ∈ query_list qs,
      try_search_and_retweet cfg orc (q.1 cfg so q.2)
        = ((q.1 cfg so q.2).map Event.inspect, none) :=
    fun q hq => try_all_rejected cfg orc _ (h q hq)
  have hns : ∀ q ∈ query_list qs,
      (try_search_and_retweet cfg orc (q.1 cfg so q.2)).2 ≠ some true := by
    intro q hq
    rw [htry q hq]
    simp
  have hev : (query_list qs).map
        (fun q => (try_search_and_retweet cfg orc (q.1 cfg so q.2)).1)
      = (query_list qs).map (fun q => (q.1 cfg so q.2).map Event.inspect) :=
    List.map_congr_left (fun q hq => by rw [htry q hq])
  constructor
  · unfold search_cycle
    rw [run_query_list_no_success cfg orc so (query_list qs) hns, hev]
  · decide

theorem empty_cycle_short_backoff_witness :
    (search_cycle ⟨[], [], false⟩ (fun _ => RetweetResult.ok)
        (fun _ _ => []) ⟨"d", "i", "p"⟩
      = ([Event.sleepEv 600], none)) ∧
    short_backoff < long_backoff := by
  have h := empty_cycle_short_backoff ⟨[], [], false⟩ (fun _ => RetweetResult.ok)
    (fun _ _ => []) ⟨"d", "i", "p"⟩
    (by intro q hq t ht
        fin_cases hq <;> simp [search, popular_search] at ht)
  exact ⟨h.1.trans (by decide), h.2⟩

/-! ### C8: query construction -/

/-- C8: the query builder applied to the fragment list `["#foo", "#bar"]`
and handle `"acct"` produces exactly the expected expression, and for these
fragments and an arbitrary handle it produces the parenthesized OR-joined
fragments, the fixed exclusion clauses, then the handle. -/
theorem make_query_scenario :
    make_query ["#foo", "#bar"] "acct"
      = "(#foo) OR (#bar) -filter:retweets AND -filter:replies AND -from:acct"
    ∧ ∀ handle : String,
      make_query ["#foo", "#bar"] handle
        = "(#foo) OR (#bar) -filter:retweets AND -filter:replies AND -from:"
            ++ handle := by
  constructor
  · decide
  · intro handle
    show String.intercalate " OR "
        (["#foo", "#bar"].map (fun l => "(" ++ strip l ++ ")"))
        ++ " -filter:retweets AND -filter:replies AND -from:" ++ handle = _
    congr 1

/-! ### C9: bounded search results -/

/-- C9: every search call yields a bounded candidate list: at most 1 item
for the recent-result strategy, at most 10 for the popular strategy. -/
theorem search_result_bounds (cfg : Config) (so : SearchOracle) (q : String) :
    (search cfg so q).length ≤ 1 ∧ (popular_search cfg so q).length ≤ 10 :=
  ⟨List.length_take_le 1 (so "recent" q), List.length_take_le 10 (so "popular" q)⟩

/-! ### C10: a blank line in the blocked-words file rejects everything -/

/-- C10: if some line of the blocked-words file is empty or whitespace-only,
the loaded blocked-words set contains the empty string; the empty string is
a substring of every text, so every candidate is rejected, no reshare
attempt ever happens, and every cycle ends "not found" with the short
backoff sleep. -/
theorem empty_blockword_line_poisons (lines : List String) (l : String)
    (hl : l ∈ lines) (ht : strip l = "") (cfg : Config)
    (orc : Tweet → RetweetResult) (so : SearchOracle) (qs : Queries)
    (items : List Tweet) (t : Tweet)
    (hwords : cfg.block_words = load_block_words lines) :
    ("" : String) ∈ cfg.block_words ∧
    Event.attempt t ∉ (try_search_and_retweet cfg orc items).1 ∧
    (search_cycle cfg orc so qs).2 = none ∧
    Event.sleepEv short_backoff ∈ (search_cycle cfg orc so qs).1 := by
  have hmem : ("" : String) ∈ cfg.block_words := by
    rw [hwords]
    exact List.mem_map.mpr ⟨l, hl, ht⟩
  have hbw : ∀ u : Tweet, blocked_word cfg u = true := by
    intro u
    simp only [blocked_word, List.any_eq_true]
    exact ⟨"", hmem, strContains_empty u.text⟩
  have hns : ∀ q ∈ query_list qs,
      (try_search_and_retweet cfg orc (q.1 cfg so q.2)).2 ≠ some true := by
    intro q hq
    rw [try_all_rejected cfg orc _ (fun u _ => by simp [rejected, hbw u])]
    simp
  have hcyc : search_cycle cfg orc so qs
      = (((query_list qs).map
            (fun q => (try_search_and_retweet cfg orc (q.1 cfg so q.2)).1)).flatten
          ++ [Event.sleepEv short_backoff], none) := by
    unfold search_cycle
    rw [run_query_list_no_success cfg orc so (query_list qs) hns]
  refine ⟨hmem, ?_, by rw [hcyc], by rw [hcyc]; simp⟩
  intro hA
  rcases mem_try_events hA with ⟨u, _, he⟩ | ⟨u, _, _, h2, _⟩
  · simp at he
  · simp [hbw u] at h2

theorem empty_blockword_line_poisons_witness :
    ("" : String) ∈ load_block_words ["  ", "bad"] ∧
    Event.attempt ⟨"a", "ok"⟩ ∉
      (try_search_and_retweet ⟨[], load_block_words ["  ", "bad"], false⟩
        (fun _ => RetweetResult.ok) [⟨"a", "ok"⟩]).1 ∧
    (search_cycle ⟨[], load_block_words ["  ", "bad"], false⟩
        (fun _ => RetweetResult.ok) (fun _ _ => [⟨"a", "ok"⟩])
        ⟨"d", "i", "p"⟩).2 = none ∧
    Event.sleepEv short_backoff ∈
      (search_cycle ⟨[], load_block_words ["  ", "bad"], false⟩
        (fun _ => RetweetResult.ok) (fun _ _ => [⟨"a", "ok"⟩])
        ⟨"d", "i", "p"⟩).1 :=
  empty_blockword_line_poisons ["  ", "bad"] "  " (by decide) (by decide)
    ⟨[], load_block_words ["  ", "bad"], false⟩ (fun _ => RetweetResult.ok)
    (fun _ _ => [⟨"a", "ok"⟩]) ⟨"d", "i", "p"⟩ [⟨"a", "ok"⟩] ⟨"a", "ok"⟩ rfl

end AcademicChat
